import Mathlib

/-!
Shallow embedding of `src/tetris_env.py` (class `TetrisEnv`), a Gym-style
environment adapter around an external Tetris game engine.  The engine
itself (`game.py`, class `Game`) is not part of the repository's sources:
the adapter consumes it as an opaque capability set (board grid, score,
game-over flag, move/rotate/drop/tick primitives), so it is modelled here
as an abstract structure of operations over an arbitrary engine-state
type `E`.  The adapter's own code — construction, `reset`, `step`,
`render`, `_get_observation` — is translated line by line.
-/

namespace TetrisSpec

/-- The capability set the adapter consumes from the game engine
(`self.game`), per `src/tetris_env.py`: mutation primitives
`move_left/move_right/rotate/move_down`, an optional `hard_drop`
(the code probes for it with `hasattr`), the gravity tick `step`
(named `tick` here to avoid clashing with the adapter's own `step`),
`reset`, and the readable state `score`, `game_over`, `locked`,
`grid.grid`. -/
structure Engine (E : Type) where
  move_left : E → E
  move_right : E → E
  rotate : E → E
  move_down : E → E
  hard_drop : Option (E → E)
  tick : E → E
  reset : E → E
  score : E → Int
  game_over : E → Bool
  locked : E → Bool
  grid : E → List (List Int)

/-- The adapter-owned state of a `TetrisEnv` instance: the fields set in
`__init__` (lines 19–42).  The gym spaces are represented by the data the
constructor passes to them: `action_n = 5` for `spaces.Discrete(5)`, and
`obs_low = 0`, `obs_high = 1`, `obs_shape = (grid_height, grid_width)` for
the binary `spaces.Box`.  `screen` models `self._screen` (a pygame
surface or `None`), reduced to presence/absence. -/
structure Adapter where
  grid_height : Nat
  grid_width : Nat
  action_n : Nat
  obs_low : Int
  obs_high : Int
  obs_shape : Nat × Nat
  last_score : Int
  screen : Option Unit
deriving Repr, DecidableEq

/-- `TetrisEnv.__init__` (lines 19–42).  Reads `grid = self.game.grid.grid`,
sets `grid_height = len(grid)` and `grid_width = len(grid[0])` — when the
grid has zero rows, `grid[0]` raises `IndexError`, modelled as `none`.
Otherwise it declares the spaces, sets `last_score = 0` and
`_screen = None`. -/
def init {E : Type} (eng : Engine E) (e : E) : Option Adapter :=
  match eng.grid e with
  | [] => none
  | r :: rest =>
    some { grid_height := (r :: rest).length
           grid_width := r.length
           action_n := 5
           obs_low := 0
           obs_high := 1
           obs_shape := ((r :: rest).length, r.length)
           last_score := 0
           screen := none }

/-- `TetrisEnv._get_observation` (lines 106–112): read `self.game.grid.grid`
and threshold every cell with `value > 0`, yielding a 0/1 grid. -/
def getObservation {E : Type} (eng : Engine E) (e : E) : List (List Int) :=
  (eng.grid e).map (fun row => row.map (fun v => if 0 < v then (1 : Int) else 0))

/-- The hard-drop fallback loop (lines 72–74):
`while not self.game.locked: self.game.move_down()`.
The Python loop has no bound of its own; a fuel parameter makes the
translation total, with `none` standing for the loop not having
terminated within the given fuel. -/
def hardDropLoop {E : Type} (eng : Engine E) : Nat → E → Option E
  | 0, e => if eng.locked e then some e else none
  | n + 1, e => if eng.locked e then some e else hardDropLoop eng n (eng.move_down e)

/-- The action dispatch of `TetrisEnv.step` (lines 57–74): the
`if action == 0 … elif action == 4` chain.  Action 4 calls the engine's
`hard_drop` when `hasattr(self.game, 'hard_drop')` holds, else runs the
fallback loop.  The chain has no `else` branch: any other action value
falls through with no engine mutation at all. -/
def applyAction {E : Type} (eng : Engine E) (fuel : Nat) (action : Int) (e : E) :
    Option E :=
  if action = 0 then some (eng.move_left e)
  else if action = 1 then some (eng.move_right e)
  else if action = 2 then some (eng.rotate e)
  else if action = 3 then some (eng.move_down e)
  else if action = 4 then
    match eng.hard_drop with
    | some hd => some (hd e)
    | none => hardDropLoop eng fuel e
  else some e

/-- The tuple `(obs, reward, done, info)` returned by `TetrisEnv.step`,
together with the adapter and engine states after the call.  The `info`
dictionary `{'score': current_score}` has a single key, carried as
`info_score`. -/
structure StepResult (E : Type) where
  obs : List (List Int)
  reward : Int
  done : Bool
  info_score : Int
  adp : Adapter
  eng : E
deriving Repr

/-- `TetrisEnv.step` (lines 52–90): apply the action (lines 57–74), then
advance one gravity tick with `self.game.step()` (line 77), read
`current_score` and compute `reward = current_score - self.last_score`
(lines 80–81), set `self.last_score = current_score` (line 82), read
`done = self.game.game_over` (line 85), compute the observation from the
post-tick board (line 88) and return (lines 89–90).  `none` only when the
hard-drop fallback loop runs out of fuel. -/
def stepEnv {E : Type} (eng : Engine E) (fuel : Nat) (a : Adapter) (action : Int)
    (e : E) : Option (StepResult E) :=
  match applyAction eng fuel action e with
  | none => none
  | some e1 =>
    let e2 := eng.tick e1
    let current_score := eng.score e2
    some { obs := getObservation eng e2
           reward := current_score - a.last_score
           done := eng.game_over e2
           info_score := current_score
           adp := { a with last_score := current_score }
           eng := e2 }

/-- `TetrisEnv.reset` (lines 44–50): `self.game.reset()`, then
`self.last_score = self.game.score`, then return the fresh observation.
Returns (observation, adapter after, engine state after). -/
def resetEnv {E : Type} (eng : Engine E) (a : Adapter) (e : E) :
    List (List Int) × Adapter × E :=
  let e1 := eng.reset e
  (getObservation eng e1, { a with last_score := eng.score e1 }, e1)

/-- Outcome of a `render` call: either a frame was drawn and presented, or
an unsupported-mode error was surfaced.  The code of `TetrisEnv.render`
(lines 92–104) never takes the error path — it ignores `mode` entirely —
but the constructor is needed to state the spec's error claim. -/
inductive RenderResult where
  | drew : RenderResult
  | unsupportedModeError : RenderResult
deriving Repr, DecidableEq

/-- `TetrisEnv.render` (lines 92–104): lazily create `self._screen` on
first call (lines 96–101), then clear, delegate drawing to the engine and
flip (lines 102–104).  The `mode` argument is received (default
`'human'`) but never inspected: every call draws. -/
def renderEnv (a : Adapter) (mode : String) : Adapter × RenderResult :=
  let a1 := match a.screen with
    | none => { a with screen := some () }
    | some _ => a
  (a1, RenderResult.drew)

/-- A small concrete engine state used to evaluate the embedding on
concrete inputs: a log of the primitive calls made, a score, a game-over
flag, the depth the active piece still has to fall (the piece is locked
at depth 0, and `move_down` decreases depth by one), and the board. -/
structure TState where
  log : List String
  scoreVal : Int
  overVal : Bool
  depth : Nat
  gridVal : List (List Int)
deriving Repr, DecidableEq

/-- A concrete engine over `TState` with no native `hard_drop`
capability.  `tick` adds 10 to the score; `reset` seeds a nonzero
score (7), clears the log and restores depth 4. -/
def tengine : Engine TState where
  move_left := fun s => { s with log := s.log ++ ["move_left"] }
  move_right := fun s => { s with log := s.log ++ ["move_right"] }
  rotate := fun s => { s with log := s.log ++ ["rotate"] }
  move_down := fun s => { s with log := s.log ++ ["move_down"], depth := s.depth - 1 }
  hard_drop := none
  tick := fun s => { s with log := s.log ++ ["tick"], scoreVal := s.scoreVal + 10 }
  reset := fun s => { s with log := [], scoreVal := 7, overVal := false, depth := 4 }
  score := fun s => s.scoreVal
  game_over := fun s => s.overVal
  locked := fun s => s.depth == 0
  grid := fun s => s.gridVal

/-- A concrete initial engine state: empty log, score 3, not over, the
active piece 3 rows above locking, and a 3×2 board with two occupied
cells. -/
def t0 : TState :=
  { log := [], scoreVal := 3, overVal := false, depth := 3
    gridVal := [[0, 2], [0, 0], [5, 0]] }

/-- The adapter state `__init__` produces for `tengine`/`t0`
(3 rows, 2 columns). -/
def adp0 : Adapter :=
  { grid_height := 3, grid_width := 2, action_n := 5, obs_low := 0, obs_high := 1
    obs_shape := (3, 2), last_score := 0, screen := none }

/-- The concrete result of `stepEnv tengine 5 adp0 0 t0` (action 0,
move left). -/
def res0 : StepResult TState :=
  { obs := [[0, 1], [0, 0], [1, 0]], reward := 13, done := false, info_score := 13
    adp := { adp0 with last_score := 13 }
    eng := { t0 with log := ["move_left", "tick"], scoreVal := 13 } }

/-- The concrete result of `stepEnv tengine 5 adp0 1 t0` (action 1,
move right). -/
def res1 : StepResult TState :=
  { obs := [[0, 1], [0, 0], [1, 0]], reward := 13, done := false, info_score := 13
    adp := { adp0 with last_score := 13 }
    eng := { t0 with log := ["move_right", "tick"], scoreVal := 13 } }

/-- The concrete result of `stepEnv tengine 5 adp0 3 t0` (action 3,
soft drop). -/
def res3 : StepResult TState :=
  { obs := [[0, 1], [0, 0], [1, 0]], reward := 13, done := false, info_score := 13
    adp := { adp0 with last_score := 13 }
    eng := { t0 with log := ["move_down", "tick"], scoreVal := 13, depth := 2 } }

/-- A concrete engine state whose board has one row and zero columns. -/
def tzc : TState :=
  { log := [], scoreVal := 0, overVal := false, depth := 0, gridVal := [[]] }

/-- A concrete engine state whose board has zero rows. -/
def tzr : TState :=
  { log := [], scoreVal := 0, overVal := false, depth := 0, gridVal := [] }

/-- C1: for every call to `step` that returns, the reward equals the
engine's score read after the tick (the score of the post-tick engine
state `eng.tick e1`) minus the adapter's `last_score` from before the
step, and the adapter's `last_score` immediately after the step equals
that post-tick score, unconditionally. -/
theorem step_reward_delta {E : Type} (eng : Engine E) (fuel : Nat) (a : Adapter)
    (action : Int) (e e1 : E) (r : StepResult E)
    (h1 : applyAction eng fuel action e = some e1)
    (h2 : stepEnv eng fuel a action e = some r) :
    r.reward = eng.score (eng.tick e1) - a.last_score ∧
    r.adp.last_score = eng.score (eng.tick e1) := by
  unfold stepEnv at h2
  rw [h1] at h2
  injection h2 with h2
  subst h2
  exact ⟨rfl, rfl⟩

/-- Witness for C1 at the concrete engine `tengine`, state `t0`,
adapter `adp0`, action 0: the reward 13 is the post-tick score 13 minus
the prior `last_score` 0, and the new `last_score` is 13. -/
theorem step_reward_delta_witness :
    res0.reward = tengine.score (tengine.tick (tengine.move_left t0)) - adp0.last_score ∧
    res0.adp.last_score = tengine.score (tengine.tick (tengine.move_left t0)) :=
  step_reward_delta tengine 5 adp0 0 t0 (tengine.move_left t0) res0 rfl rfl

/-- C2: for every call to `step` whose action dispatch produces the
engine state `e1` (the single mutation for the action applied to `e`),
the call invokes the engine's tick primitive exactly once on `e1`, and
the observation, reward, done flag and info score are all computed from
the post-tick state `eng.tick e1`, never from a pre-tick state. -/
theorem step_action_then_single_tick {E : Type} (eng : Engine E) (fuel : Nat)
    (a : Adapter) (action : Int) (e e1 : E)
    (h1 : applyAction eng fuel action e = some e1) :
    stepEnv eng fuel a action e =
      some { obs := getObservation eng (eng.tick e1)
             reward := eng.score (eng.tick e1) - a.last_score
             done := eng.game_over (eng.tick e1)
             info_score := eng.score (eng.tick e1)
             adp := { a with last_score := eng.score (eng.tick e1) }
             eng := eng.tick e1 } := by
  unfold stepEnv
  rw [h1]

/-- Witness for C2 at the concrete engine `tengine`, state `t0`,
action 2 (rotate): the step result is built entirely from
`tengine.tick (tengine.rotate t0)`. -/
theorem step_action_then_single_tick_witness :
    stepEnv tengine 5 adp0 2 t0 =
      some { obs := getObservation tengine (tengine.tick (tengine.rotate t0))
             reward := tengine.score (tengine.tick (tengine.rotate t0)) - adp0.last_score
             done := tengine.game_over (tengine.tick (tengine.rotate t0))
             info_score := tengine.score (tengine.tick (tengine.rotate t0))
             adp := { adp0 with last_score := tengine.score (tengine.tick (tengine.rotate t0)) }
             eng := tengine.tick (tengine.rotate t0) } :=
  step_action_then_single_tick tengine 5 adp0 2 t0 (tengine.rotate t0) rfl

/-- The hard-drop fallback loop only returns states the engine reports
locked: it is a `while not locked` loop, so on normal termination the
negated guard holds. -/
theorem hardDropLoop_locked {E : Type} (eng : Engine E) :
    ∀ (n : Nat) (e e' : E), hardDropLoop eng n e = some e' → eng.locked e' = true := by
  intro n
  induction n with
  | zero =>
    intro e e' h
    unfold hardDropLoop at h
    split at h
    · injection h with h
      subst h
      assumption
    · cases h
  | succ n ih =>
    intro e e' h
    unfold hardDropLoop at h
    split at h
    · injection h with h
      subst h
      assumption
    · exact ih (eng.move_down e) e' h

/-- C3: dispatching action 4 (HARD_DROP) always leaves the engine
reporting the active piece locked by the time the dispatch returns —
via the engine's native `hard_drop` when it exists (assuming, per the
engine contract, that the native primitive places the piece), and
otherwise via the fallback loop that repeatedly invokes `move_down`
until the engine reports `locked`. -/
theorem hard_drop_locks {E : Type} (eng : Engine E) (fuel : Nat) (e e' : E)
    (hnative : ∀ hd, eng.hard_drop = some hd → ∀ x, eng.locked (hd x) = true)
    (h : applyAction eng fuel 4 e = some e') :
    eng.locked e' = true := by
  unfold applyAction at h
  norm_num at h
  cases hh : eng.hard_drop with
  | some hd =>
    rw [hh] at h
    injection h with h
    subst h
    exact hnative hd hh e
  | none =>
    rw [hh] at h
    exact hardDropLoop_locked eng fuel e e' h

/-- Witness for C3 at the concrete engine `tengine` (which has no native
`hard_drop`), state `t0` with the piece 3 rows above locking: the
fallback loop invokes `move_down` three times and the resulting state is
locked. -/
theorem hard_drop_locks_witness :
    tengine.locked { log := ["move_down", "move_down", "move_down"], scoreVal := 3
                     overVal := false, depth := 0
                     gridVal := [[0, 2], [0, 0], [5, 0]] } = true :=
  hard_drop_locks tengine 5 t0 _ (fun _ h => nomatch h) rfl

/-- C4 counterexample: calling `step` with the out-of-range action 7 at
the concrete engine `tengine`, state `t0`, does not fail — it returns a
normal result — and it does mutate the engine state: the tick is still
performed, changing the state (log gains "tick", score rises from 3 to
13).  This falsifies the claim that such a call fails with an
InvalidAction error and leaves the engine unchanged. -/
theorem step_invalid_action_counterexample :
    stepEnv tengine 5 adp0 7 t0 =
      some { obs := [[0, 1], [0, 0], [1, 0]], reward := 13, done := false
             info_score := 13, adp := { adp0 with last_score := 13 }
             eng := { t0 with log := ["tick"], scoreVal := 13 } } ∧
    ({ t0 with log := ["tick"], scoreVal := 13 } : TState) ≠ t0 :=
  ⟨rfl, by decide⟩

/-- C4 as amended: for every action value outside {0,1,2,3,4}, `step`
raises no error and applies no action mutation — the `if/elif` chain
falls through — but the gravity tick is still performed on the
unmodified engine state and a normal result is returned. -/
theorem step_invalid_action_silently_ticks {E : Type} (eng : Engine E) (fuel : Nat)
    (a : Adapter) (action : Int) (e : E)
    (h0 : action ≠ 0) (h1 : action ≠ 1) (h2 : action ≠ 2) (h3 : action ≠ 3)
    (h4 : action ≠ 4) :
    stepEnv eng fuel a action e =
      some { obs := getObservation eng (eng.tick e)
             reward := eng.score (eng.tick e) - a.last_score
             done := eng.game_over (eng.tick e)
             info_score := eng.score (eng.tick e)
             adp := { a with last_score := eng.score (eng.tick e) }
             eng := eng.tick e } := by
  unfold stepEnv applyAction
  rw [if_neg h0, if_neg h1, if_neg h2, if_neg h3, if_neg h4]

/-- Witness for the amended C4 at action 7. -/
theorem step_invalid_action_silently_ticks_witness :
    stepEnv tengine 5 adp0 7 t0 =
      some { obs := getObservation tengine (tengine.tick t0)
             reward := tengine.score (tengine.tick t0) - adp0.last_score
             done := tengine.game_over (tengine.tick t0)
             info_score := tengine.score (tengine.tick t0)
             adp := { adp0 with last_score := tengine.score (tengine.tick t0) }
             eng := tengine.tick t0 } :=
  step_invalid_action_silently_ticks tengine 5 adp0 7 t0
    (by decide) (by decide) (by decide) (by decide) (by decide)

/-- C5: for any adapter constructed from an engine state `e0`, and any
later engine state `e` whose board still has the dimensions inferred at
construction (the engine contract fixes the board's H×W for the
instance's lifetime), the observation is the `value > 0` thresholding of
the board, its shape matches the declared observation-space shape
`(grid_height, grid_width)`, and every element is 0 or 1. -/
theorem observation_shape_binary {E : Type} (eng : Engine E) (e0 e : E) (a : Adapter)
    (hinit : init eng e0 = some a)
    (hH : (eng.grid e).length = a.grid_height)
    (hW : ∀ row ∈ eng.grid e, row.length = a.grid_width) :
    a.obs_shape = (a.grid_height, a.grid_width) ∧
    getObservation eng e =
      (eng.grid e).map (fun row => row.map (fun v => if 0 < v then (1 : Int) else 0)) ∧
    (getObservation eng e).length = a.obs_shape.1 ∧
    (∀ row ∈ getObservation eng e, row.length = a.obs_shape.2) ∧
    (∀ row ∈ getObservation eng e, ∀ v ∈ row, v = 0 ∨ v = 1) := by
  unfold init at hinit
  cases hgr : eng.grid e0 with
  | nil =>
    rw [hgr] at hinit
    cases hinit
  | cons r rest =>
    rw [hgr] at hinit
    injection hinit with hinit
    subst hinit
    refine ⟨rfl, rfl, ?_, ?_, ?_⟩
    · simpa [getObservation] using hH
    · intro row hrow
      simp only [getObservation, List.mem_map] at hrow
      obtain ⟨row0, hrow0, hmap⟩ := hrow
      subst hmap
      simpa using hW row0 hrow0
    · intro row hrow v hv
      simp only [getObservation, List.mem_map] at hrow
      obtain ⟨row0, hrow0, hmap⟩ := hrow
      subst hmap
      simp only [List.mem_map] at hv
      obtain ⟨v0, hv0, hthr⟩ := hv
      subst hthr
      split
      · right; rfl
      · left; rfl

/-- Witness for C5 at the concrete engine `tengine` and state `t0`:
the adapter constructed at `t0` has declared shape (3, 2) and the
observation of `t0` itself matches it with binary entries. -/
theorem observation_shape_binary_witness :
    adp0.obs_shape = (adp0.grid_height, adp0.grid_width) ∧
    getObservation tengine t0 =
      (tengine.grid t0).map (fun row => row.map (fun v => if 0 < v then (1 : Int) else 0)) ∧
    (getObservation tengine t0).length = adp0.obs_shape.1 ∧
    (∀ row ∈ getObservation tengine t0, row.length = adp0.obs_shape.2) ∧
    (∀ row ∈ getObservation tengine t0, ∀ v ∈ row, v = 0 ∨ v = 1) :=
  observation_shape_binary tengine t0 t0 adp0 rfl rfl (by decide)

/-- C6: for every call to `step` that returns, the `done` flag is
exactly the engine's `game_over` flag read on the engine state of that
same call (the post-tick state the call returns), and the info
dictionary's single key `'score'` carries the engine's score at that
instant. -/
theorem step_done_and_info {E : Type} (eng : Engine E) (fuel : Nat) (a : Adapter)
    (action : Int) (e : E) (r : StepResult E)
    (h : stepEnv eng fuel a action e = some r) :
    r.done = eng.game_over r.eng ∧ r.info_score = eng.score r.eng := by
  unfold stepEnv at h
  cases happ : applyAction eng fuel action e with
  | none =>
    rw [happ] at h
    cases h
  | some e1 =>
    rw [happ] at h
    injection h with h
    subst h
    exact ⟨rfl, rfl⟩

/-- Witness for C6 at the concrete engine `tengine`, state `t0`,
action 1: the returned `done` equals `game_over` of the returned engine
state and the info score equals its score. -/
theorem step_done_and_info_witness :
    res1.done = tengine.game_over res1.eng ∧ res1.info_score = tengine.score res1.eng :=
  step_done_and_info tengine 5 adp0 1 t0 res1 rfl

/-- C7: immediately after `reset`, the adapter's `last_score` equals the
engine's post-reset score (whatever it is — no zero assumption), and the
returned observation is encoded from the post-reset board. -/
theorem reset_rebaselines {E : Type} (eng : Engine E) (a : Adapter) (e : E) :
    (resetEnv eng a e).2.1.last_score = eng.score (eng.reset e) ∧
    (resetEnv eng a e).1 = getObservation eng (eng.reset e) :=
  ⟨rfl, rfl⟩

/-- C8 counterexample: calling `render` with the non-"human" mode
"rgb_array" on a freshly constructed adapter does not surface an
unsupported-mode error — it creates the surface and draws a frame.
This falsifies the claim that any mode other than "human" errors
immediately with no rendering attempted. -/
theorem render_mode_counterexample :
    renderEnv adp0 "rgb_array" = ({ adp0 with screen := some () }, RenderResult.drew) ∧
    RenderResult.drew ≠ RenderResult.unsupportedModeError :=
  ⟨rfl, by decide⟩

/-- C8 as amended: `render` never inspects its mode argument.  For every
mode — "human" and any other string alike — it draws a frame (no
unsupported-mode error is ever surfaced) and afterwards a render surface
exists (created on this call if absent, reused otherwise). -/
theorem render_ignores_mode (a : Adapter) (mode : String) :
    (renderEnv a mode).2 = RenderResult.drew ∧
    (renderEnv a mode).1.screen.isSome = true := by
  unfold renderEnv
  cases h : a.screen <;> simp [h]

/-- C9 counterexample: a board with one row and zero columns
(`grid = [[]]`) does not make construction fail: `len(grid) = 1`,
`len(grid[0]) = 0`, and construction completes with `grid_width = 0`.
This falsifies the claim that construction fails whenever the board has
zero rows or zero columns. -/
theorem init_zero_columns_counterexample :
    init tengine tzc =
      some { grid_height := 1, grid_width := 0, action_n := 5, obs_low := 0
             obs_high := 1, obs_shape := (1, 0), last_score := 0, screen := none } :=
  rfl

/-- C9 as amended: construction fails (the `grid[0]` read raises
IndexError) exactly when the engine's board has zero rows; with at least
one row — including a first row of zero columns — it succeeds, inferring
`grid_height` and `grid_width` from the board, declaring a 5-symbol
discrete action space and a binary (0/1) observation space of shape
(grid_height, grid_width), and initializing `last_score = 0` with no
render surface. -/
theorem init_characterization {E : Type} (eng : Engine E) (e : E) :
    (eng.grid e = [] → init eng e = none) ∧
    ∀ r rest, eng.grid e = r :: rest →
      init eng e =
        some { grid_height := (r :: rest).length, grid_width := r.length
               action_n := 5, obs_low := 0, obs_high := 1
               obs_shape := ((r :: rest).length, r.length)
               last_score := 0, screen := none } := by
  constructor
  · intro h
    unfold init
    rw [h]
  · intro r rest h
    unfold init
    rw [h]

/-- Witness for the amended C9: with a zero-row board construction
fails, and at `t0` (a 3×2 board) it succeeds producing `adp0`. -/
theorem init_characterization_witness :
    init tengine tzr = none ∧ init tengine t0 = some adp0 :=
  ⟨(init_characterization tengine tzr).1 rfl,
   (init_characterization tengine t0).2 [0, 2] [[0, 0], [5, 0]] rfl⟩

/-- C10: `step` (any action) and `reset` change no adapter-owned field
other than `last_score`: the grid dimensions, the declared action and
observation spaces, and the render-surface field are all preserved. -/
theorem step_reset_frame {E : Type} (eng : Engine E) (fuel : Nat) (a : Adapter)
    (action : Int) (e : E) :
    (∀ r : StepResult E, stepEnv eng fuel a action e = some r →
      r.adp.grid_height = a.grid_height ∧ r.adp.grid_width = a.grid_width ∧
      r.adp.action_n = a.action_n ∧ r.adp.obs_low = a.obs_low ∧
      r.adp.obs_high = a.obs_high ∧ r.adp.obs_shape = a.obs_shape ∧
      r.adp.screen = a.screen) ∧
    ((resetEnv eng a e).2.1.grid_height = a.grid_height ∧
     (resetEnv eng a e).2.1.grid_width = a.grid_width ∧
     (resetEnv eng a e).2.1.action_n = a.action_n ∧
     (resetEnv eng a e).2.1.obs_low = a.obs_low ∧
     (resetEnv eng a e).2.1.obs_high = a.obs_high ∧
     (resetEnv eng a e).2.1.obs_shape = a.obs_shape ∧
     (resetEnv eng a e).2.1.screen = a.screen) := by
  constructor
  · intro r h
    unfold stepEnv at h
    cases happ : applyAction eng fuel action e with
    | none =>
      rw [happ] at h
      cases h
    | some e1 =>
      rw [happ] at h
      injection h with h
      subst h
      exact ⟨rfl, rfl, rfl, rfl, rfl, rfl, rfl⟩
  · exact ⟨rfl, rfl, rfl, rfl, rfl, rfl, rfl⟩

/-- Witness for C10 at the concrete engine `tengine`, state `t0`,
adapter `adp0`, action 3: both the step result's adapter and the
post-reset adapter agree with `adp0` on every field except
`last_score`. -/
theorem step_reset_frame_witness :
    (res3.adp.grid_height = adp0.grid_height ∧ res3.adp.grid_width = adp0.grid_width ∧
     res3.adp.action_n = adp0.action_n ∧ res3.adp.obs_low = adp0.obs_low ∧
     res3.adp.obs_high = adp0.obs_high ∧ res3.adp.obs_shape = adp0.obs_shape ∧
     res3.adp.screen = adp0.screen) ∧
    ((resetEnv tengine adp0 t0).2.1.grid_height = adp0.grid_height ∧
     (resetEnv tengine adp0 t0).2.1.grid_width = adp0.grid_width ∧
     (resetEnv tengine adp0 t0).2.1.action_n = adp0.action_n ∧
     (resetEnv tengine adp0 t0).2.1.obs_low = adp0.obs_low ∧
     (resetEnv tengine adp0 t0).2.1.obs_high = adp0.obs_high ∧
     (resetEnv tengine adp0 t0).2.1.obs_shape = adp0.obs_shape ∧
     (resetEnv tengine adp0 t0).2.1.screen = adp0.screen) :=
  ⟨(step_reset_frame tengine 5 adp0 3 t0).1 res3 rfl,
   (step_reset_frame tengine 5 adp0 3 t0).2⟩

end TetrisSpec
